import Mathlib

/-!
Verification of the client-side reconciliation engine of the flood-monitoring
dashboard (src/static/js/modern_dashboard.js and src/static/js/dashboard.js).

Modelling conventions for the shallow embedding:
* A chart label is an ISO-8601 timestamp string; the code only ever compares
  labels for equality and orders them by their `Date` parse value, so a label
  is represented by that parse value in epoch milliseconds (`LabelMs`).
* A JS series value slot is `some q` for a finite number and `none` for
  `null`/`undefined` (Chart.js treats both as a gap).
* Fallible fetches are explicit sum types; a thrown/caught error is a
  constructor, never an exception.
-/

namespace FloodDash

/-- Epoch-millisecond value of an ISO-8601 chart label. -/
abbrev LabelMs := Int

/-- One chart slot: `some q` is a finite JS number, `none` is `null` (or
`undefined`, which renders identically as a gap). -/
abbrev Slot := Option ℚ

/-- One input to `mergeSeries`: `{ labels, values, key }` as assembled in
`loadTrendsChart` (modern_dashboard.js:1225-1231). -/
structure InputSeries where
  key : String
  labels : List LabelMs
  values : List Slot
deriving DecidableEq

/-- The return shape of `mergeSeries`: `{ labels, series }` where `series`
is a JS object, modelled as an association list written in assignment
order (later assignments to the same key shadow earlier ones, see
`objGet`). -/
structure SeriesSet where
  labels : List LabelMs
  series : List (String × List Slot)
deriving DecidableEq

/-- JS object read `series[k] || []`: the value of the last assignment to
key `k`, or `[]` when the key is absent. -/
def objGet (series : List (String × List Slot)) (k : String) : List Slot :=
  (series.foldl (fun acc p => if p.1 = k then some p.2 else acc) none).getD []

/-- The entries inserted into the per-input `Map` by
`(s.labels || []).forEach((l, i) => map.set(l, s.values[i]))`
(modern_dashboard.js:1672): each label paired with the value at the same
index; reading past the end of `values` gives `undefined`, collapsed to
`none`. -/
def mapEntries : List LabelMs → List Slot → List (LabelMs × Slot)
  | [], _ => []
  | l :: ls, vs => (l, (vs.head?).getD none) :: mapEntries ls vs.tail

theorem mapEntries_cons (l : LabelMs) (ls : List LabelMs) (vs : List Slot) :
    mapEntries (l :: ls) vs = (l, (vs.head?).getD none) :: mapEntries ls vs.tail := rfl

/-- Lookup in the `Map` after all insertions: a later `map.set` for the same label
overwrites an earlier one, so the fold keeps the last matching entry. -/
def mapFind (entries : List (LabelMs × Slot)) (l : LabelMs) : Option Slot :=
  entries.foldl (fun acc e => if e.1 = l then some e.2 else acc) none

/-- Projection `map.has(l) ? map.get(l) : null` (modern_dashboard.js:1673) for the
`Map` built from input `s`. -/
def projVal (s : InputSeries) (l : LabelMs) : Slot :=
  (mapFind (mapEntries s.labels s.values) l).getD none

/-- Read of `s.values[i]`, with `undefined` past the end collapsed to `none`. -/
def valueAt (vs : List Slot) (i : Nat) : Slot :=
  (vs[i]?).getD none

/-- Every label pushed into the label `Set` across all inputs
(modern_dashboard.js:1666-1667). -/
def allLabels (arr : List InputSeries) : List LabelMs :=
  (arr.map InputSeries.labels).flatten

/-- The label axis of `mergeSeries`:
`Array.from(labelSet).sort((a,b) => new Date(a) - new Date(b))`.  JS `Set`
de-duplication followed by a sort on the distinct parse values is realised
as `dedup` followed by a stable insertion sort. -/
def mergedLabels (arr : List InputSeries) : List LabelMs :=
  ((allLabels arr).dedup).insertionSort (· ≤ ·)

/-- Function `mergeSeries` (modern_dashboard.js:1665-1676): the de-duplicated label
axis sorted chronologically, and each input projected onto it with `null`
at the gaps. -/
def mergeSeries (arr : List InputSeries) : SeriesSet :=
  { labels := mergedLabels arr
    series := arr.map (fun s => (s.key, (mergedLabels arr).map (projVal s))) }

/-! Helper lemmas about the `Map` model. -/

/-- Folding the overwrite step over entries none of which match `l` keeps
the accumulator. -/
theorem foldl_overwrite_no_match (l : LabelMs) :
    ∀ (es : List (LabelMs × Slot)) (acc : Option Slot),
      (∀ e ∈ es, e.1 ≠ l) →
      es.foldl (fun acc e => if e.1 = l then some e.2 else acc) acc = acc := by
  intro es
  induction es with
  | nil => intro acc _; rfl
  | cons e es ih =>
      intro acc h
      have he : e.1 ≠ l := h e (List.mem_cons_self e es)
      simp only [List.foldl_cons, if_neg he]
      exact ih acc (fun x hx => h x (List.mem_cons_of_mem e hx))

/-- Every key stored in the `Map` comes from the input's label list. -/
theorem mapEntries_fst_mem :
    ∀ (ls : List LabelMs) (vs : List Slot) (e : LabelMs × Slot),
      e ∈ mapEntries ls vs → e.1 ∈ ls := by
  intro ls
  induction ls with
  | nil => intro vs e h; simp [mapEntries] at h
  | cons a ls ih =>
      intro vs e h
      simp only [mapEntries, List.mem_cons] at h
      rcases h with h | h
      · subst h; exact List.mem_cons_self a ls
      · exact List.mem_cons_of_mem a (ih vs.tail e h)

/-- A label absent from the input never hits the `Map`. -/
theorem mapFind_eq_none_of_not_mem (s : InputSeries) (l : LabelMs)
    (h : l ∉ s.labels) :
    mapFind (mapEntries s.labels s.values) l = none := by
  apply foldl_overwrite_no_match
  intro e he hel
  exact h (hel ▸ mapEntries_fst_mem s.labels s.values e he)

/-- Splitting `mapEntries` along a split of the label list, the values being
consumed positionally. -/
theorem mapEntries_append :
    ∀ (as bs : List LabelMs) (vs : List Slot),
      mapEntries (as ++ bs) vs
        = mapEntries as vs ++ mapEntries bs (vs.drop as.length) := by
  intro as
  induction as with
  | nil => intro bs vs; simp [mapEntries]
  | cons a as ih =>
      intro bs vs
      have hstep : mapEntries ((a :: as) ++ bs) vs
          = (a, (vs.head?).getD none) :: mapEntries (as ++ bs) vs.tail := rfl
      rw [hstep, ih bs vs.tail]
      have hdrop : (vs.tail).drop as.length = vs.drop ((a :: as).length) := by
        rw [← List.drop_one, List.drop_drop, List.length_cons]
        congr 1
        omega
      rw [hdrop]
      rfl

/-- The slot stored for the label at position `i` is `values[i]`. -/
theorem head_drop_valueAt (vs : List Slot) (i : Nat) :
    ((vs.drop i).head?).getD none = valueAt vs i := by
  rw [valueAt, List.head?_drop]

/-! ### Claim C4 — alignment completeness of `mergeSeries` -/

/-- C4: for every list of input series, `mergeSeries` produces a label axis
whose length is the number of distinct timestamps across all inputs, sorted
chronologically (strictly increasing); every output series array has
exactly the length of the label axis; each output entry is the projection
of an input with that key onto the axis; and the projection is `null` at
every label the input lacks. -/
theorem mergeSeries_alignment (arr : List InputSeries) :
    (mergeSeries arr).labels.length = (allLabels arr).toFinset.card
    ∧ (mergeSeries arr).labels.Sorted (· < ·)
    ∧ (∀ p ∈ (mergeSeries arr).series, p.2.length = (mergeSeries arr).labels.length)
    ∧ (∀ p ∈ (mergeSeries arr).series,
        ∃ s ∈ arr, p.1 = s.key ∧ p.2 = (mergeSeries arr).labels.map (projVal s))
    ∧ (∀ s : InputSeries, ∀ l : LabelMs, l ∉ s.labels → projVal s l = none) := by
  have hperm : (mergedLabels arr).Perm (allLabels arr).dedup :=
    List.perm_insertionSort _ _
  refine ⟨?_, ?_, ?_, ?_, ?_⟩
  · show (mergedLabels arr).length = _
    rw [hperm.length_eq, List.card_toFinset]
  · show (mergedLabels arr).Sorted (· < ·)
    have hsorted : (mergedLabels arr).Sorted (· ≤ ·) :=
      List.sorted_insertionSort _ _
    have hnodup : (mergedLabels arr).Nodup :=
      hperm.symm.nodup (List.nodup_dedup _)
    exact hsorted.lt_of_le hnodup
  · intro p hp
    simp only [mergeSeries, List.mem_map] at hp
    obtain ⟨s, _, rfl⟩ := hp
    show ((mergedLabels arr).map (projVal s)).length = (mergedLabels arr).length
    rw [List.length_map]
  · intro p hp
    simp only [mergeSeries, List.mem_map] at hp
    obtain ⟨s, hs, rfl⟩ := hp
    exact ⟨s, hs, rfl, rfl⟩
  · intro s l h
    unfold projVal
    rw [mapFind_eq_none_of_not_mem s l h]
    rfl

/-- Concrete single input used by witnesses: temperature readings at parse
values 1 and 2. -/
def sampleTemp : InputSeries :=
  { key := "t", labels := [1, 2], values := [some 30, some 31] }

/-- Witness for C4 at a concrete input: timestamp 5 is absent from
`sampleTemp`, so its projection there is `null`. -/
theorem mergeSeries_alignment_witness :
    (5 : LabelMs) ∉ sampleTemp.labels ∧ projVal sampleTemp 5 = none := by
  refine ⟨by decide, ?_⟩
  exact (mergeSeries_alignment [sampleTemp]).2.2.2.2 sampleTemp 5 (by decide)

/-! ### Claim C7 — empty inputs (corrected) -/

/-- Concrete input with an empty label array, for C7. -/
def emptyTemp : InputSeries := { key := "t", labels := [], values := [] }

/-- Counterexample to C7 as stated: with a single input holding an empty
label array, the output's series mapping is not empty — it carries one
empty array under the input's key (`{t: []}`), not `{}`. -/
theorem mergeSeries_all_empty_counterexample :
    (mergeSeries [emptyTemp]).series ≠ [] := by
  decide

/-- C7 amended: an empty input list yields `{labels: [], series: {}}`; a
list of inputs whose label arrays are all empty yields an empty label axis
and one empty series array per input key (not an empty mapping); neither
case is an error. -/
theorem mergeSeries_empty_inputs (arr : List InputSeries) :
    mergeSeries ([] : List InputSeries) = { labels := [], series := [] }
    ∧ ((∀ s ∈ arr, s.labels = []) →
        (mergeSeries arr).labels = []
        ∧ (mergeSeries arr).series = arr.map (fun s => (s.key, []))) := by
  constructor
  · rfl
  · intro h
    have hall : allLabels arr = [] := by
      unfold allLabels
      rw [List.flatten_eq_nil_iff]
      intro xs hxs
      obtain ⟨s, hs, rfl⟩ := List.mem_map.mp hxs
      exact h s hs
    have hlabels : mergedLabels arr = [] := by
      unfold mergedLabels
      rw [hall]
      rfl
    refine ⟨hlabels, ?_⟩
    show arr.map (fun s => (s.key, (mergedLabels arr).map (projVal s)))
      = arr.map (fun s => (s.key, []))
    rw [hlabels]
    rfl

/-- Witness for C7's amended theorem at a concrete all-empty input. -/
theorem mergeSeries_empty_inputs_witness :
    (mergeSeries [emptyTemp]).labels = []
    ∧ (mergeSeries [emptyTemp]).series
        = [emptyTemp].map (fun s => (s.key, ([] : List Slot))) :=
  (mergeSeries_empty_inputs [emptyTemp]).2
    (by intro s hs; simp only [List.mem_singleton] at hs; rw [hs]; rfl)

/-! ### Claim C8 — duplicate timestamps: the later occurrence wins -/

/-- C8: when an input repeats the same timestamp (here at positions
`xs.length` and `xs.length + ys.length + 1`, the latter being the last
occurrence), the aligned output carries at that timestamp the value of the
later occurrence, `values[xs.length + ys.length + 1]`; and the merged
output for a single input is exactly its projection onto the axis. -/
theorem mergeSeries_last_dup_wins (key : String) (xs ys zs : List LabelMs)
    (vs : List Slot) (l : LabelMs) (hzs : l ∉ zs) :
    projVal { key := key, labels := xs ++ l :: ys ++ l :: zs, values := vs } l
      = valueAt vs (xs.length + ys.length + 1)
    ∧ (mergeSeries [{ key := key, labels := xs ++ l :: ys ++ l :: zs, values := vs }]).series
      = [(key, (mergeSeries [{ key := key, labels := xs ++ l :: ys ++ l :: zs, values := vs }]).labels.map
          (projVal { key := key, labels := xs ++ l :: ys ++ l :: zs, values := vs }))] := by
  constructor
  · show (mapFind (mapEntries (xs ++ (l :: ys) ++ (l :: zs)) vs) l).getD none = _
    rw [List.append_assoc,
        mapEntries_append xs ((l :: ys) ++ (l :: zs)) vs,
        mapEntries_append (l :: ys) (l :: zs) (vs.drop xs.length),
        mapEntries_cons, mapEntries_cons]
    unfold mapFind
    rw [List.foldl_append, List.foldl_append, List.foldl_cons]
    have hstep :
        (if (l, ((((vs.drop xs.length).drop ((l :: ys).length)).head?).getD none)).1 = l
          then some (l, ((((vs.drop xs.length).drop ((l :: ys).length)).head?).getD none)).2
          else (List.foldl (fun acc e => if e.1 = l then some e.2 else acc)
            (List.foldl (fun acc e => if e.1 = l then some e.2 else acc) none (mapEntries xs vs))
            ((l, (((vs.drop xs.length).head?).getD none)) :: mapEntries ys (vs.drop xs.length).tail)))
        = some ((((vs.drop xs.length).drop ((l :: ys).length)).head?).getD none) := by
      rw [if_pos rfl]
    rw [hstep]
    rw [foldl_overwrite_no_match l _ _
      (by
        intro e he hel
        exact hzs (hel ▸ mapEntries_fst_mem zs _ e he))]
    have hidx : (vs.drop xs.length).drop ((l :: ys).length)
        = vs.drop (xs.length + ys.length + 1) := by
      rw [List.drop_drop, List.length_cons]
      congr 1
    rw [hidx, head_drop_valueAt]
    rfl
  · rfl

/-- Witness for C8: labels `[5, 5]` with values `[1, 2]` project to the
later value `2` at timestamp `5`. -/
theorem mergeSeries_last_dup_wins_witness :
    (5 : LabelMs) ∉ ([] : List LabelMs)
    ∧ projVal { key := "t", labels := [5, 5], values := [some 1, some 2] } 5
        = some 2 := by
  refine ⟨by decide, ?_⟩
  have h := (mergeSeries_last_dup_wins "t" [] [] [] [some 1, some 2] 5 (by decide)).1
  simpa [valueAt] using h

/-! ### Range filtering (`filterMergedByRange`, modern_dashboard.js:1492-1531) -/

/-- The five fixed trend series `{t, h, r, wl, ws}` of the modern dashboard
chart. -/
structure TrendSeries where
  t : List Slot
  h : List Slot
  r : List Slot
  wl : List Slot
  ws : List Slot
deriving DecidableEq

/-- A merged series set as consumed by `filterMergedByRange`.  Each label
carries the `Date` parse of its ISO string, with `none` marking a string
whose parse is `NaN` (an invalid date). -/
structure MergedView where
  labels : List (Option LabelMs)
  series : TrendSeries
deriving DecidableEq

/-- Table `const mapDays` of day windows (7 for a week key, 30 for a
month, 365 for a year)
(modern_dashboard.js:1497); absent keys read as `undefined`. -/
def mapDays (rangeKey : String) : Option Nat :=
  if rangeKey = "1w" then some 7
  else if rangeKey = "1m" then some 30
  else if rangeKey = "1y" then some 365
  else none

/-- Milliseconds per day, `24 * 60 * 60 * 1000`. -/
def dayMs : Int := 24 * 60 * 60 * 1000

/-- Read of `labels[i]` (in-range reads only; out of range collapses to
`none`). -/
def labelAt (labels : List (Option LabelMs)) (i : Nat) : Option LabelMs :=
  (labels[i]?).getD none

/-- The indices retained by the filter loop
(modern_dashboard.js:1516-1526): position `i` survives when its label
parses to a valid date at or after the cutoff. -/
def keepIdx (labels : List (Option LabelMs)) (cutoff : Int) : List Nat :=
  (List.range labels.length).filter (fun i =>
    match labelAt labels i with
    | some d => decide (cutoff ≤ d)
    | none => false)

/-- Function `filterMergedByRange` (modern_dashboard.js:1492-1531): for a day-based
range key, keep only the positions whose label is at or after
`lastLabel - N days`, pushing the label and all five series slots for each
kept position; pass everything else through unchanged (fail open). -/
def filterMergedByRange (m : MergedView) (rangeKey : String) : MergedView :=
  if m.labels.length = 0 ∨ rangeKey = "latest" ∨ (mapDays rangeKey).isNone then m
  else
    match m.labels.getLast? with
    | none => m
    | some none => m
    | some (some lastMs) =>
        let cutoff := lastMs - ((mapDays rangeKey).getD 0 : Int) * dayMs
        let keep := keepIdx m.labels cutoff
        { labels := keep.map (labelAt m.labels)
          series :=
            { t := keep.map (valueAt m.series.t)
              h := keep.map (valueAt m.series.h)
              r := keep.map (valueAt m.series.r)
              wl := keep.map (valueAt m.series.wl)
              ws := keep.map (valueAt m.series.ws) } }

/-- Reading each kept index back from the list is ordinary filtering: the
loop that pushes `labels[i]` for every surviving `i` produces
`labels.filter` of the survival predicate. -/
theorem map_keep_filter (p : Option LabelMs → Bool) :
    ∀ (l : List (Option LabelMs)),
      ((List.range l.length).filter (fun i => p ((l[i]?).getD none))).map
          (fun i => (l[i]?).getD none)
        = l.filter p := by
  intro l
  induction l with
  | nil => rfl
  | cons a l ih =>
      rw [List.length_cons, List.range_succ_eq_map]
      by_cases hpa : p a
      · simp only [List.filter_cons, List.getElem?_cons_zero, Option.getD_some, hpa,
          if_true, List.filter_map, List.map_cons, List.map_map, Function.comp_def,
          List.getElem?_cons_succ]
        rw [ih]
      · simp only [List.filter_cons, List.getElem?_cons_zero, Option.getD_some, hpa,
          Bool.false_eq_true, if_false, List.filter_map, List.map_map,
          Function.comp_def, List.getElem?_cons_succ]
        rw [ih]

/-! ### Claim C5 — day-based range filtering -/

/-- Concrete merged view for the spec's boundary example: labels at the
parse values of 2024-01-01T00:00Z, 2024-01-05T00:00Z and 2024-01-10T00:00Z
(epoch ms). -/
def sampleMerged : MergedView :=
  { labels := [some 1704067200000, some 1704412800000, some 1704844800000]
    series :=
      { t := [some 30, some 31, some 32]
        h := [some 60, none, some 62]
        r := [none, some 5, some 12]
        wl := [some 1, some 2, some 3]
        ws := [some 10, some 11, some 12] } }

/-- C5: for a day-based range key with window `N`, filtering keeps exactly
the positions whose timestamp is at or after `lastLabel - N` days, the
same index list selecting all five series (alignment preserved); on the
boundary example, the 7-day filter keeps exactly the last two entries; an
empty label list or an unparseable newest label returns the input
unchanged. -/
theorem filterMergedByRange_spec :
    (∀ (m : MergedView) (k : String), m.labels = [] → filterMergedByRange m k = m)
    ∧ (∀ (m : MergedView) (k : String), m.labels.getLast? = some none →
        filterMergedByRange m k = m)
    ∧ (∀ (m : MergedView) (k : String) (N : Nat) (lastMs cutoff : Int),
        mapDays k = some N → m.labels.getLast? = some (some lastMs) →
        cutoff = lastMs - (N : Int) * dayMs →
        filterMergedByRange m k =
          { labels := (keepIdx m.labels cutoff).map (labelAt m.labels)
            series :=
              { t := (keepIdx m.labels cutoff).map (valueAt m.series.t)
                h := (keepIdx m.labels cutoff).map (valueAt m.series.h)
                r := (keepIdx m.labels cutoff).map (valueAt m.series.r)
                wl := (keepIdx m.labels cutoff).map (valueAt m.series.wl)
                ws := (keepIdx m.labels cutoff).map (valueAt m.series.ws) } }
        ∧ (keepIdx m.labels cutoff).Pairwise (· < ·)
        ∧ (∀ i : Nat, i ∈ keepIdx m.labels cutoff ↔
            i < m.labels.length ∧ ∃ d : LabelMs, labelAt m.labels i = some d ∧ cutoff ≤ d)
        ∧ (filterMergedByRange m k).labels
            = m.labels.filter (fun ol =>
                match ol with | some d => decide (cutoff ≤ d) | none => false))
    ∧ filterMergedByRange sampleMerged "1w" =
        { labels := [some 1704412800000, some 1704844800000]
          series :=
            { t := [some 31, some 32]
              h := [none, some 62]
              r := [some 5, some 12]
              wl := [some 2, some 3]
              ws := [some 11, some 12] } } := by
  have hmain : ∀ (m : MergedView) (k : String) (N : Nat) (lastMs : Int),
      mapDays k = some N → m.labels.getLast? = some (some lastMs) →
      filterMergedByRange m k =
        { labels := (keepIdx m.labels (lastMs - (N : Int) * dayMs)).map (labelAt m.labels)
          series :=
            { t := (keepIdx m.labels (lastMs - (N : Int) * dayMs)).map (valueAt m.series.t)
              h := (keepIdx m.labels (lastMs - (N : Int) * dayMs)).map (valueAt m.series.h)
              r := (keepIdx m.labels (lastMs - (N : Int) * dayMs)).map (valueAt m.series.r)
              wl := (keepIdx m.labels (lastMs - (N : Int) * dayMs)).map (valueAt m.series.wl)
              ws := (keepIdx m.labels (lastMs - (N : Int) * dayMs)).map (valueAt m.series.ws) } } := by
    intro m k N lastMs hk hlast
    have hne : m.labels ≠ [] := by
      intro h0
      rw [h0] at hlast
      simp at hlast
    have hcond : ¬ (m.labels.length = 0 ∨ k = "latest" ∨ (mapDays k).isNone) := by
      push_neg
      refine ⟨by simpa using hne, ?_, by rw [hk]; simp⟩
      intro hke
      rw [hke] at hk
      simp [mapDays] at hk
    unfold filterMergedByRange
    rw [if_neg hcond, hlast]
    rw [hk]
    rfl
  refine ⟨?_, ?_, ?_, ?_⟩
  · intro m k h0
    unfold filterMergedByRange
    rw [if_pos (Or.inl (by rw [h0]; rfl))]
  · intro m k hlast
    unfold filterMergedByRange
    by_cases hcond : m.labels.length = 0 ∨ k = "latest" ∨ (mapDays k).isNone
    · rw [if_pos hcond]
    · rw [if_neg hcond, hlast]
  · intro m k N lastMs cutoff hk hlast hcut
    subst hcut
    refine ⟨hmain m k N lastMs hk hlast, ?_, ?_, ?_⟩
    · exact List.Pairwise.sublist (List.filter_sublist _) (List.pairwise_lt_range _)
    · intro i
      unfold keepIdx
      rw [List.mem_filter, List.mem_range]
      constructor
      · rintro ⟨hi, hp⟩
        refine ⟨hi, ?_⟩
        cases hd : labelAt m.labels i with
        | none => rw [hd] at hp; simp at hp
        | some d =>
            rw [hd] at hp
            exact ⟨d, rfl, of_decide_eq_true hp⟩
      · rintro ⟨hi, d, hd, hcd⟩
        refine ⟨hi, ?_⟩
        rw [hd]
        exact decide_eq_true hcd
    · rw [hmain m k N lastMs hk hlast]
      show ((keepIdx m.labels (lastMs - (N : Int) * dayMs)).map (labelAt m.labels)) = _
      unfold keepIdx labelAt
      exact map_keep_filter
        (fun ol => match ol with
          | some d => decide (lastMs - (N : Int) * dayMs ≤ d)
          | none => false)
        m.labels
  · have h := hmain sampleMerged "1w" 7 1704844800000 (by rfl) (by rfl)
    rw [h]
    decide

/-! ### Declared alerts and threshold severity
(`updateAlerts`, modern_dashboard.js:679-793) -/

/-- A declared flood alert as consumed by the reconciliation; only the
severity level drives the logic under verification (`title`,
`description`, `affected_barangays` feed string interpolation and
side tables only). -/
structure DeclaredAlert where
  severity_level : Nat
deriving DecidableEq

/-- One item of the threshold-severity payload assembled by
`fetchThresholdSeverity` (modern_dashboard.js:836-842); the `thresholds`
table is only interpolated into message text and is not modelled. -/
structure SevItem where
  parameter : String
  unit : String
  latest : Option ℚ
  level : Nat
deriving DecidableEq

/-- The `{ level, items }` object returned by `fetchThresholdSeverity`
(modern_dashboard.js:843-844). -/
structure ThresholdSev where
  level : Nat
  items : List SevItem
deriving DecidableEq

/-- Reduction `items.reduce((m, it) => Math.max(m, it.level || 0), 0)`
(modern_dashboard.js:843): the level reported with the items. -/
def maxItemLevel (items : List SevItem) : Nat :=
  items.foldl (fun m it => max m it.level) 0

/-- Descending severity order on declared alerts, as induced by the
comparator `(a,b) => b.severity_level - a.severity_level`. -/
def alertGE (a b : DeclaredAlert) : Prop := b.severity_level ≤ a.severity_level

instance : DecidableRel alertGE := fun a b => Nat.decLe b.severity_level a.severity_level

instance : IsTotal DeclaredAlert alertGE := ⟨fun a b => le_total b.severity_level a.severity_level⟩

instance : IsTrans DeclaredAlert alertGE := ⟨fun _ _ _ hab hbc => le_trans hbc hab⟩

/-- Sort `results.sort((a,b) => b.severity_level - a.severity_level)`
(modern_dashboard.js:696): a stable descending sort. -/
def sortedAlerts (results : List DeclaredAlert) : List DeclaredAlert :=
  results.insertionSort alertGE

/-- Read of `results[0] || null` after the sort (modern_dashboard.js:697). -/
def highestAlert (results : List DeclaredAlert) : Option DeclaredAlert :=
  (sortedAlerts results).head?

/-- Expression `highest ? (highest.severity_level || 0) : 0`
(modern_dashboard.js:708). -/
def declaredLevel (results : List DeclaredAlert) : Nat :=
  match highestAlert results with
  | none => 0
  | some a => a.severity_level

/-- Expression `(sev && sev.level is a number) ? sev.level : 0`
(modern_dashboard.js:707). -/
def thresholdLevel (sev : Option ThresholdSev) : Nat :=
  match sev with
  | none => 0
  | some s => s.level

/-- Table `const levels` of badge names with the `ALERT` default
(modern_dashboard.js:711, 1764-1767). -/
def severityName (level : Nat) : String :=
  if level = 1 then "ADVISORY"
  else if level = 2 then "WATCH"
  else if level = 3 then "WARNING"
  else if level = 4 then "EMERGENCY"
  else if level = 5 then "CATASTROPHIC"
  else "ALERT"

/-- Descending order on threshold items, as induced by the comparator
`(a,b) => (b.level||0) - (a.level||0)`. -/
def sevGE (a b : SevItem) : Prop := b.level ≤ a.level

instance : DecidableRel sevGE := fun a b => Nat.decLe b.level a.level

instance : IsTotal SevItem sevGE := ⟨fun a b => le_total b.level a.level⟩

instance : IsTrans SevItem sevGE := ⟨fun _ _ _ hab hbc => le_trans hbc hab⟩

/-- Selection `sev.items.filter(it => it.level > 0).sort(level descending).slice(0,3)`
(modern_dashboard.js:738, 752): the explanation detail items. -/
def topBreached (items : List SevItem) : List SevItem :=
  ((items.filter (fun it => decide (0 < it.level))).insertionSort sevGE).take 3

/-- Which title/message branch `updateAlerts` took
(modern_dashboard.js:727, 745, 756). -/
inductive StatusSource
  | alertPath
  | thresholdPath
  | normalPath
deriving DecidableEq

/-- The alert view model written by `updateAlerts`: the badge text, which
title branch was taken, the combined level behind the badge colour, and
the threshold-severity detail items the main branches attach to the
message (the parameter-status fallback append of lines 768-785 happens in
a later stage, modelled by `updateAlertsMessageDetails`). -/
structure AlertView where
  badgeText : String
  source : StatusSource
  combinedLevel : Nat
  details : List SevItem
deriving DecidableEq

/-- The pure view computation of the main branches of `updateAlerts`
(modern_dashboard.js:704-761) once the (already barangay-filtered) alert
results and the threshold severity are in hand.  Its `details` are the
items of the `buildThresholdDetails` list those branches push; the list
reaches the message — as a `<ul` — exactly when it is nonempty. -/
def updateAlertsView (results : List DeclaredAlert) (sev : Option ThresholdSev) : AlertView :=
  let combined := max (declaredLevel results) (thresholdLevel sev)
  let badge := if 0 < combined then severityName combined else "Normal"
  let details := match sev with | some s => topBreached s.items | none => []
  match highestAlert results with
  | some hi =>
      if thresholdLevel sev ≤ hi.severity_level then
        { badgeText := badge, source := StatusSource.alertPath,
          combinedLevel := combined, details := details }
      else if 0 < thresholdLevel sev ∧ sev.isSome = true then
        { badgeText := badge, source := StatusSource.thresholdPath,
          combinedLevel := combined, details := details }
      else
        { badgeText := badge, source := StatusSource.normalPath,
          combinedLevel := combined, details := [] }
  | none =>
      if 0 < thresholdLevel sev ∧ sev.isSome = true then
        { badgeText := badge, source := StatusSource.thresholdPath,
          combinedLevel := combined, details := details }
      else
        { badgeText := badge, source := StatusSource.normalPath,
          combinedLevel := combined, details := [] }

/-- Fallback detail construction from the parameter-status items
(modern_dashboard.js:770-784): `p.items.filter(x => (x.level||0) > 0)`
followed by `.slice(0,3)` — no sort.  The field-name adaptation of the
`.map` at lines 774-780 is absorbed into the `SevItem` shape; appending
only when `mapped.length` is nonzero attaches the same (empty) list. -/
def fallbackDetails (pitems : List SevItem) : List SevItem :=
  (pitems.filter (fun it => decide (0 < it.level))).take 3

/-- The complete explanation detail `updateAlerts` leaves on the alert
message: the threshold-severity details when the main branch attached a
nonempty `<ul` (the `indexOf('<ul') === -1` test at
modern_dashboard.js:771 finds one exactly then), otherwise the
parameter-status fallback when that fetch succeeded (`p` is `none` when
`fetchParameterStatus` returned `null`). -/
def updateAlertsMessageDetails (results : List DeclaredAlert) (sev : Option ThresholdSev)
    (p : Option (List SevItem)) : List SevItem :=
  if (updateAlertsView results sev).details ≠ [] then (updateAlertsView results sev).details
  else
    match p with
    | some pitems => fallbackDetails pitems
    | none => []

/-- The outcome of a fetch as observed by the calling code: a parsed JSON
value, or a thrown transport/HTTP error. -/
inductive Fetched (α : Type)
  | ok (val : α)
  | fail
deriving DecidableEq

/-- Response handling of `updateAlerts` (modern_dashboard.js:685-792): on the
ok path the view is recomputed from the results and the threshold severity
(itself `none` when that fetch failed); the catch handler at lines 790-792
leaves the view as-is. -/
def updateAlertsRender (prev : AlertView) (alertsResp : Fetched (List DeclaredAlert))
    (sev : Option ThresholdSev) : AlertView :=
  match alertsResp with
  | .fail => prev
  | .ok results => updateAlertsView results sev

/-- Legacy `updateAlertStatus` (dashboard.js:633-674): the status text it
writes; `none` models the switch falling through without touching the
text. -/
def updateAlertStatusText (highest : Option DeclaredAlert) : Option String :=
  match highest with
  | none => some "Normal"
  | some a =>
      if a.severity_level = 5 then some "CATASTROPHIC"
      else if a.severity_level = 4 then some "EMERGENCY"
      else if a.severity_level = 3 then some "WARNING"
      else if a.severity_level = 2 then some "WATCH"
      else if a.severity_level = 1 then some "ADVISORY"
      else none

/-- Legacy `checkActiveAlerts` (dashboard.js:301-373): the status text its
handlers pass to `updateAlertStatus`.  The transport-failure catch at
dashboard.js:365-372 calls `updateAlertStatus(null)`. -/
def checkActiveAlertsStatusText (resp : Fetched (List DeclaredAlert)) : Option String :=
  match resp with
  | .fail => updateAlertStatusText none
  | .ok results =>
      match highestAlert results with
      | none => updateAlertStatusText none
      | some hi => updateAlertStatusText (some hi)

/-! Helper lemmas about the sorted alerts list. -/

theorem sortedAlerts_perm (results : List DeclaredAlert) :
    (sortedAlerts results).Perm results :=
  List.perm_insertionSort _ _

theorem highestAlert_eq_none_iff (results : List DeclaredAlert) :
    highestAlert results = none ↔ results = [] := by
  unfold highestAlert
  rw [List.head?_eq_none_iff]
  constructor
  · intro h
    have := (sortedAlerts_perm results)
    rw [h] at this
    exact this.symm.eq_nil
  · intro h
    subst h
    rfl

theorem highestAlert_mem {results : List DeclaredAlert} {hi : DeclaredAlert}
    (h : highestAlert results = some hi) : hi ∈ results := by
  have hm : hi ∈ sortedAlerts results := List.mem_of_mem_head? (Option.mem_def.mpr h)
  exact (sortedAlerts_perm results).mem_iff.mp hm

theorem declaredLevel_of_highest {results : List DeclaredAlert} {hi : DeclaredAlert}
    (h : highestAlert results = some hi) :
    declaredLevel results = hi.severity_level := by
  unfold declaredLevel
  rw [h]

theorem le_declaredLevel (results : List DeclaredAlert) :
    ∀ a ∈ results, a.severity_level ≤ declaredLevel results := by
  intro a ha
  have hm : a ∈ sortedAlerts results := (sortedAlerts_perm results).symm.mem_iff.mp ha
  cases hs : sortedAlerts results with
  | nil => rw [hs] at hm; simp at hm
  | cons hd tl =>
      have hlvl : declaredLevel results = hd.severity_level := by
        unfold declaredLevel highestAlert
        rw [hs]
        rfl
      rw [hlvl]
      have hsorted : List.Sorted alertGE (sortedAlerts results) :=
        List.sorted_insertionSort _ _
      rw [hs] at hm hsorted
      rcases List.mem_cons.mp hm with h | h
      · rw [h]
      · exact (List.sorted_cons.mp hsorted).1 a h

theorem thresholdLevel_pos_isSome {sev : Option ThresholdSev}
    (h : 0 < thresholdLevel sev) : sev.isSome = true := by
  cases sev with
  | none => simp [thresholdLevel] at h
  | some s => rfl

/-! ### Claim C2 — severity combination and alert precedence -/

/-- C2: under the invariant that declared alerts carry positive levels
(`d = 0` exactly when no alert is declared), the combined level is
`max(d, t)` where `d` is the level of the top sorted alert — itself the
maximum declared level — and the declared-alert branch is taken iff
`d >= t` and `d > 0`. -/
theorem severity_combination (results : List DeclaredAlert) (sev : Option ThresholdSev)
    (hpos : ∀ a ∈ results, 1 ≤ a.severity_level) :
    (updateAlertsView results sev).combinedLevel
        = max (declaredLevel results) (thresholdLevel sev)
    ∧ (∀ a ∈ results, a.severity_level ≤ declaredLevel results)
    ∧ (declaredLevel results = 0 ∨ ∃ a ∈ results, a.severity_level = declaredLevel results)
    ∧ ((updateAlertsView results sev).source = StatusSource.alertPath ↔
        thresholdLevel sev ≤ declaredLevel results ∧ 0 < declaredLevel results) := by
  refine ⟨?_, le_declaredLevel results, ?_, ?_⟩
  · unfold updateAlertsView
    cases highestAlert results <;> dsimp only <;> split <;> try rfl
    split <;> rfl
  · cases hs : highestAlert results with
    | none =>
        left
        unfold declaredLevel
        rw [hs]
    | some hi =>
        right
        exact ⟨hi, highestAlert_mem hs, (declaredLevel_of_highest hs).symm⟩
  · cases hs : highestAlert results with
    | none =>
        have hd0 : declaredLevel results = 0 := by unfold declaredLevel; rw [hs]
        unfold updateAlertsView
        rw [hs]
        constructor
        · intro h
          dsimp only at h
          split at h <;> simp at h
        · rintro ⟨_, hpos'⟩
          rw [hd0] at hpos'
          exact absurd hpos' (lt_irrefl 0)
    | some hi =>
        have hd : declaredLevel results = hi.severity_level := declaredLevel_of_highest hs
        have hipos : 1 ≤ hi.severity_level := hpos hi (highestAlert_mem hs)
        unfold updateAlertsView
        rw [hs]
        constructor
        · intro h
          dsimp only at h
          split at h
          · rw [hd]
            exact ⟨by assumption, lt_of_lt_of_le Nat.zero_lt_one hipos⟩
          · split at h <;> simp at h
        · rintro ⟨hle, _⟩
          rw [hd] at hle
          dsimp only
          rw [if_pos hle]

/-- Concrete inputs for the C2 witness: a declared level-3 alert against a
threshold level 4 (the spec's end-to-end scenario). -/
def sampleAlert : DeclaredAlert := { severity_level := 3 }

/-- Concrete threshold severity for witnesses. -/
def sampleSev : ThresholdSev :=
  { level := 4
    items := [{ parameter := "rainfall", unit := "mm", latest := some 120, level := 4 }] }

/-- Witness for C2 at the concrete scenario. -/
theorem severity_combination_witness :
    (updateAlertsView [sampleAlert] (some sampleSev)).combinedLevel
      = max (declaredLevel [sampleAlert]) (thresholdLevel (some sampleSev)) :=
  (severity_combination [sampleAlert] (some sampleSev) (by decide)).1

/-! ### Claim C9 — explanation details: breached items, sorted, top 3
(corrected) -/

/-- Concrete breached parameter-status items for the C9 counterexample,
listed in ascending severity order. -/
def lowBreach : SevItem :=
  { parameter := "humidity", unit := "%", latest := some 96, level := 1 }

/-- Concrete higher-severity parameter-status item for the C9
counterexample. -/
def highBreach : SevItem :=
  { parameter := "rainfall", unit := "mm", latest := some 120, level := 3 }

/-- Counterexample to C9 as stated: when the threshold-severity fetch
failed (`sev = none`) and the parameter-status items hold two breached
entries in ascending order, the fallback of modern_dashboard.js:768-785
attaches them to the message as-is — a detail list that is not built from
the threshold-severity items and is not sorted by level descending. -/
theorem explanation_details_counterexample :
    updateAlertsMessageDetails [] none (some [lowBreach, highBreach])
        = [lowBreach, highBreach]
    ∧ updateAlertsMessageDetails [] none (some [lowBreach, highBreach]) ≠ topBreached []
    ∧ ¬ List.Sorted sevGE (updateAlertsMessageDetails [] none (some [lowBreach, highBreach])) := by
  refine ⟨by decide, by decide, ?_⟩
  have heq : updateAlertsMessageDetails [] none (some [lowBreach, highBreach])
      = [lowBreach, highBreach] := by decide
  rw [heq]
  intro h
  have hge := (List.sorted_cons.mp h).1 highBreach (List.mem_cons_self _ _)
  exact absurd hge (by decide)

/-- C9 amended: on the main branches the attached detail is the
three-element prefix of the descending-sorted list of exactly the
threshold-severity items with positive level — some `rest` completes it to
that sorted list (a permutation of the filtered items), its length is
`min 3` the breached count, every retained item is a breached input item,
and every non-normal view branch computes exactly this list.  Whenever
that list is nonempty it is what the message carries; when it is empty
(threshold fetch failed, or no breached threshold item, or normal branch)
the message instead receives the parameter-status fallback: the breached
parameter-status items, unsorted, truncated to the first three. -/
theorem explanation_details (items : List SevItem) :
    (∃ rest : List SevItem,
      topBreached items ++ rest
          = (items.filter (fun it => decide (0 < it.level))).insertionSort sevGE
        ∧ List.Sorted sevGE (topBreached items ++ rest)
        ∧ (topBreached items ++ rest).Perm
            (items.filter (fun it => decide (0 < it.level))))
    ∧ (topBreached items).length
        = min 3 (items.filter (fun it => decide (0 < it.level))).length
    ∧ (∀ it ∈ topBreached items, 0 < it.level ∧ it ∈ items)
    ∧ (∀ results : List DeclaredAlert, ∀ s : ThresholdSev,
        (updateAlertsView results (some s)).source ≠ StatusSource.normalPath →
        (updateAlertsView results (some s)).details = topBreached s.items)
    ∧ (∀ (results : List DeclaredAlert) (sev : Option ThresholdSev)
          (p : Option (List SevItem)),
        (updateAlertsView results sev).details ≠ [] →
        updateAlertsMessageDetails results sev p = (updateAlertsView results sev).details)
    ∧ (∀ (results : List DeclaredAlert) (sev : Option ThresholdSev)
          (p : Option (List SevItem)),
        (updateAlertsView results sev).details = [] →
        updateAlertsMessageDetails results sev p = (p.map fallbackDetails).getD [])
    ∧ (∀ pitems : List SevItem, (fallbackDetails pitems).length ≤ 3
        ∧ ∀ it ∈ fallbackDetails pitems, 0 < it.level ∧ it ∈ pitems) := by
  refine ⟨?_, ?_, ?_, ?_, ?_, ?_, ?_⟩
  · unfold topBreached
    refine ⟨((items.filter (fun it => decide (0 < it.level))).insertionSort sevGE).drop 3,
      List.take_append_drop 3 _, ?_, ?_⟩
    · rw [List.take_append_drop 3 _]
      exact List.sorted_insertionSort _ _
    · rw [List.take_append_drop 3 _]
      exact List.perm_insertionSort _ _
  · unfold topBreached
    rw [List.length_take,
      (List.perm_insertionSort sevGE (items.filter (fun it => decide (0 < it.level)))).length_eq]
  · intro it hit
    have h1 : it ∈ (items.filter (fun it => decide (0 < it.level))).insertionSort sevGE :=
      List.mem_of_mem_take hit
    have h2 : it ∈ items.filter (fun it => decide (0 < it.level)) :=
      (List.perm_insertionSort _ _).mem_iff.mp h1
    have h3 := List.mem_filter.mp h2
    exact ⟨of_decide_eq_true h3.2, h3.1⟩
  · intro results s hne
    unfold updateAlertsView at hne ⊢
    cases hs : highestAlert results with
    | none =>
        rw [hs] at hne
        dsimp only at hne ⊢
        by_cases hcond : 0 < thresholdLevel (some s) ∧ (some s).isSome = true
        · rw [if_pos hcond]
        · rw [if_neg hcond] at hne
          exact absurd rfl hne
    | some hi =>
        rw [hs] at hne
        dsimp only at hne ⊢
        by_cases h1 : thresholdLevel (some s) ≤ hi.severity_level
        · rw [if_pos h1]
        · by_cases hcond : 0 < thresholdLevel (some s) ∧ (some s).isSome = true
          · rw [if_neg h1, if_pos hcond]
          · rw [if_neg h1, if_neg hcond] at hne
            exact absurd rfl hne
  · intro results sev p hne
    unfold updateAlertsMessageDetails
    rw [if_pos hne]
  · intro results sev p hnil
    unfold updateAlertsMessageDetails
    rw [if_neg (fun hne => hne hnil)]
    cases p <;> rfl
  · intro pitems
    refine ⟨List.length_take_le 3 _, ?_⟩
    intro it hit
    have h2 := List.mem_filter.mp (List.mem_of_mem_take hit)
    exact ⟨of_decide_eq_true h2.2, h2.1⟩

/-- Witness for C9's amended theorem: with a failed threshold fetch the
message receives the parameter-status fallback. -/
theorem explanation_details_witness :
    updateAlertsMessageDetails [] none (some [lowBreach, highBreach])
      = ((some [lowBreach, highBreach]).map fallbackDetails).getD [] :=
  (explanation_details [lowBreach, highBreach]).2.2.2.2.2.1 [] none
    (some [lowBreach, highBreach]) (by decide)

/-! ### Claim C6 — "Normal" only when both signals are empty (corrected) -/

/-- Counterexample to C6 as stated: in the legacy dashboard
(dashboard.js:365-372) a transport failure of the alert fetch alone is
rendered as "Normal" via `updateAlertStatus(null)`. -/
theorem legacy_error_renders_normal_counterexample :
    checkActiveAlertsStatusText Fetched.fail = some "Normal" := rfl

/-- C6 amended: in the modern dashboard, a transport failure of the alert
fetch leaves the alert view untouched, and the "Normal" branch is taken
exactly when the alert fetch returned no alerts and the threshold signal
failed or reported no breach; the legacy dashboard.js, however, renders
"Normal" on a transport failure of the alert fetch alone. -/
theorem alert_normal_fallback (prev : AlertView) (results : List DeclaredAlert)
    (sev : Option ThresholdSev) :
    updateAlertsRender prev Fetched.fail sev = prev
    ∧ ((updateAlertsRender prev (Fetched.ok results) sev).source = StatusSource.normalPath ↔
        results = [] ∧ thresholdLevel sev = 0)
    ∧ checkActiveAlertsStatusText Fetched.fail = some "Normal" := by
  refine ⟨rfl, ?_, rfl⟩
  show (updateAlertsView results sev).source = StatusSource.normalPath ↔ _
  constructor
  · intro h
    unfold updateAlertsView at h
    cases hs : highestAlert results with
    | some hi =>
        rw [hs] at h
        dsimp only at h
        split at h
        · simp at h
        · split at h
          · simp at h
          · rename_i hnle hnthr
            exfalso
            have hlt : hi.severity_level < thresholdLevel sev := Nat.lt_of_not_le hnle
            have hpos : 0 < thresholdLevel sev := Nat.lt_of_le_of_lt (Nat.zero_le _) hlt
            exact hnthr ⟨hpos, thresholdLevel_pos_isSome hpos⟩
    | none =>
        have hres : results = [] := (highestAlert_eq_none_iff results).mp hs
        refine ⟨hres, ?_⟩
        rw [hs] at h
        dsimp only at h
        split at h
        · simp at h
        · rename_i hnthr
          by_contra hne
          have hpos : 0 < thresholdLevel sev := Nat.pos_of_ne_zero hne
          exact hnthr ⟨hpos, thresholdLevel_pos_isSome hpos⟩
  · rintro ⟨hres, ht⟩
    subst hres
    unfold updateAlertsView
    have hs : highestAlert ([] : List DeclaredAlert) = none := rfl
    rw [hs]
    dsimp only
    rw [if_neg (by rintro ⟨hpos, _⟩; rw [ht] at hpos; exact absurd hpos (lt_irrefl 0))]

/-- A concrete prior view for the C6 witness. -/
def blankView : AlertView :=
  { badgeText := "Normal", source := StatusSource.normalPath, combinedLevel := 0, details := [] }

/-- Witness for C6's amended theorem: empty alerts and a missing threshold
signal produce the "Normal" branch. -/
theorem alert_normal_fallback_witness :
    (updateAlertsRender blankView (Fetched.ok []) none).source = StatusSource.normalPath :=
  (alert_normal_fallback blankView [] none).2.1.mpr ⟨rfl, rfl⟩

/-! ### The alerts request fence (`state._alertsReqToken`) -/

/-- The alerts request stream: the monotonic token counter
`state._alertsReqToken` (modern_dashboard.js:18) together with the alert
view model the responses write. -/
structure AlertsStream where
  token : Nat
  view : AlertView
deriving DecidableEq

/-- Capture `const token = ++state._alertsReqToken` at the top of `updateAlerts`
(modern_dashboard.js:680): bump the counter and capture the new value. -/
def beginRequest (s : AlertsStream) : AlertsStream × Nat :=
  ({ s with token := s.token + 1 }, s.token + 1)

/-- Bump `state._alertsReqToken++` in the scope-change handlers
(modern_dashboard.js:434, 460): bump the counter to invalidate in-flight
responses, without capturing. -/
def bumpToken (s : AlertsStream) : AlertsStream :=
  { s with token := s.token + 1 }

/-- Guard `if (token !== state._alertsReqToken) return;` before every write
(modern_dashboard.js:689, 706, 766): apply the view only when the captured
token is still current. -/
def tryCommit (s : AlertsStream) (token : Nat) (v : AlertView) : AlertsStream :=
  if token = s.token then { s with view := v } else s

/-- Events that may interleave with an in-flight alerts request: further
`updateAlerts` invocations, scope changes, and completions of requests
carrying their captured tokens (one `respond` per await-separated write
stage). -/
inductive StreamEvent
  | invoke
  | scopeChange
  | respond (token : Nat) (v : AlertView)
deriving DecidableEq

/-- Event semantics on the stream state. -/
def stepEvent (s : AlertsStream) : StreamEvent → AlertsStream
  | .invoke => (beginRequest s).1
  | .scopeChange => bumpToken s
  | .respond t v => tryCommit s t v

/-- Run a sequence of events in order (the single-threaded event loop). -/
def runEvents (s : AlertsStream) (es : List StreamEvent) : AlertsStream :=
  es.foldl stepEvent s

/-- Whether an event bumps the stream token, superseding older requests. -/
def isBump : StreamEvent → Bool
  | .invoke => true
  | .scopeChange => true
  | .respond _ _ => false

theorem tryCommit_token (s : AlertsStream) (t : Nat) (v : AlertView) :
    (tryCommit s t v).token = s.token := by
  unfold tryCommit
  split <;> rfl

/-- The stream token after a run is the starting token plus the number of
bumping events: responses never move it, every invocation or scope change
adds one. -/
theorem runEvents_token :
    ∀ (es : List StreamEvent) (s : AlertsStream),
      (runEvents s es).token = s.token + es.countP isBump := by
  intro es
  induction es with
  | nil => intro s; simp [runEvents]
  | cons e es ih =>
      intro s
      show (runEvents (stepEvent s e) es).token = _
      rw [ih (stepEvent s e), List.countP_cons]
      cases e with
      | invoke => simp [stepEvent, beginRequest, isBump]; omega
      | scopeChange => simp [stepEvent, bumpToken, isBump]; omega
      | respond t v => simp [stepEvent, tryCommit_token, isBump]

/-! ### Claim C1 — the fence: last-issued token wins -/

/-- C1: a response whose token was captured by `beginRequest` commits (and
then mutates exactly the view) precisely when no later token bump — no
later `updateAlerts` invocation and no scope change — happened before it
is processed; after any such bump the commit is a complete no-op, whatever
other responses arrive in between and in whatever order. -/
theorem updateAlerts_fence (s0 : AlertsStream) (es : List StreamEvent) (v : AlertView) :
    (0 < es.countP isBump →
      tryCommit (runEvents (beginRequest s0).1 es) (beginRequest s0).2 v
        = runEvents (beginRequest s0).1 es)
    ∧ (es.countP isBump = 0 →
      tryCommit (runEvents (beginRequest s0).1 es) (beginRequest s0).2 v
        = { runEvents (beginRequest s0).1 es with view := v }) := by
  have htok : (runEvents (beginRequest s0).1 es).token
      = s0.token + 1 + es.countP isBump := by
    rw [runEvents_token es (beginRequest s0).1]
    rfl
  constructor
  · intro hbump
    have hne : ¬ (beginRequest s0).2 = (runEvents (beginRequest s0).1 es).token := by
      rw [htok]
      show ¬ s0.token + 1 = s0.token + 1 + es.countP isBump
      omega
    unfold tryCommit
    rw [if_neg hne]
  · intro hnone
    have heq : (beginRequest s0).2 = (runEvents (beginRequest s0).1 es).token := by
      rw [htok, hnone]
      rfl
    unfold tryCommit
    rw [if_pos heq]

/-- Witness for C1: after a scope change, the stale token's commit leaves
the stream untouched; with no interleaving bump it commits. -/
theorem updateAlerts_fence_witness :
    (0 < ([StreamEvent.scopeChange].countP isBump)
      ∧ tryCommit (runEvents (beginRequest ⟨0, blankView⟩).1 [StreamEvent.scopeChange])
          (beginRequest (⟨0, blankView⟩ : AlertsStream)).2 blankView
        = runEvents (beginRequest ⟨0, blankView⟩).1 [StreamEvent.scopeChange])
    ∧ (([] : List StreamEvent).countP isBump = 0
      ∧ tryCommit (runEvents (beginRequest ⟨0, blankView⟩).1 [])
          (beginRequest (⟨0, blankView⟩ : AlertsStream)).2 blankView
        = { runEvents (beginRequest ⟨0, blankView⟩).1 [] with view := blankView }) :=
  ⟨⟨by decide, (updateAlerts_fence ⟨0, blankView⟩ [StreamEvent.scopeChange] blankView).1 (by decide)⟩,
   ⟨by decide, (updateAlerts_fence ⟨0, blankView⟩ [] blankView).2 (by decide)⟩⟩

/-! ### The trend-data scope fallback (`loadTrendsChart`,
modern_dashboard.js:1181-1346) -/

/-- The three widening request shapes `loadTrendsChart` can issue: the
selected barangay+municipality parameters, municipality-only
(`includeBarangay: false`), and global (`includeMunicipality: false` as
well). -/
inductive TrendScope
  | fullScope
  | muniScope
  | globalScope
deriving DecidableEq

/-- Check `arr.some(v => v is a finite number)` over the five fixed
series keys (modern_dashboard.js:1234-1242). -/
def anyData (ss : SeriesSet) : Bool :=
  (["t", "h", "r", "wl", "ws"] : List String).any
    (fun k => (objGet ss.series k).any (fun v => v.isSome))

/-- Emptiness test `!merged.labels.length || !anyData`
(modern_dashboard.js:1244): empty
or all-null data. -/
def isEmptyMerged (ss : SeriesSet) : Bool :=
  ss.labels.isEmpty || !(anyData ss)

/-- The fallback ladder of `loadTrendsChart`
(modern_dashboard.js:1192-1346): try the full scope; when empty and a
barangay is selected, retry without the barangay; when still empty and a
municipality is selected, retry globally; otherwise show the no-data
overlay.  Returns the scopes fetched in order together with the accepted
merged result and its fallback flag (`none` when no scope had data). -/
def loadTrendsResolve (fetch : TrendScope → SeriesSet)
    (barangaySelected muniSelected : Bool) :
    List TrendScope × Option (SeriesSet × Bool) :=
  let m1 := fetch .fullScope
  if !(isEmptyMerged m1) then ([.fullScope], some (m1, false))
  else if barangaySelected then
    let m2 := fetch .muniScope
    if !(isEmptyMerged m2) then ([.fullScope, .muniScope], some (m2, true))
    else if muniSelected then
      let m3 := fetch .globalScope
      if !(isEmptyMerged m3) then
        ([.fullScope, .muniScope, .globalScope], some (m3, true))
      else ([.fullScope, .muniScope, .globalScope], none)
    else ([.fullScope, .muniScope], none)
  else if muniSelected then
    let m3 := fetch .globalScope
    if !(isEmptyMerged m3) then ([.fullScope, .globalScope], some (m3, true))
    else ([.fullScope, .globalScope], none)
  else ([.fullScope], none)

/-! ### Claim C3 — strict scope ordering and fallback flag -/

/-- C3: with both a barangay and a municipality selected (the three-scope
candidate list), scopes are attempted strictly in the order full →
municipality-only → global, a broader scope only after every narrower one
came back empty or all-null; an accepted result is the fetch of an
attempted scope with data, flagged as fallback exactly when that scope is
not the first; and the no-data outcome means all three scopes were empty. -/
theorem trends_scope_fallback (fetch : TrendScope → SeriesSet) :
    ((loadTrendsResolve fetch true true).1.head? = some TrendScope.fullScope)
    ∧ (TrendScope.muniScope ∈ (loadTrendsResolve fetch true true).1 →
        isEmptyMerged (fetch .fullScope) = true)
    ∧ (TrendScope.globalScope ∈ (loadTrendsResolve fetch true true).1 →
        isEmptyMerged (fetch .fullScope) = true ∧ isEmptyMerged (fetch .muniScope) = true)
    ∧ ((loadTrendsResolve fetch true true).1 = [TrendScope.fullScope]
        ∨ (loadTrendsResolve fetch true true).1 = [TrendScope.fullScope, TrendScope.muniScope]
        ∨ (loadTrendsResolve fetch true true).1
            = [TrendScope.fullScope, TrendScope.muniScope, TrendScope.globalScope])
    ∧ (∀ m fb, (loadTrendsResolve fetch true true).2 = some (m, fb) →
        ∃ sc, sc ∈ (loadTrendsResolve fetch true true).1 ∧ m = fetch sc
          ∧ isEmptyMerged m = false ∧ fb = decide (sc ≠ TrendScope.fullScope))
    ∧ ((loadTrendsResolve fetch true true).2 = none →
        isEmptyMerged (fetch .fullScope) = true ∧ isEmptyMerged (fetch .muniScope) = true
          ∧ isEmptyMerged (fetch .globalScope) = true) := by
  by_cases e1 : isEmptyMerged (fetch .fullScope) = true
  · by_cases e2 : isEmptyMerged (fetch .muniScope) = true
    · by_cases e3 : isEmptyMerged (fetch .globalScope) = true
      · have hres : loadTrendsResolve fetch true true
            = ([TrendScope.fullScope, TrendScope.muniScope, TrendScope.globalScope], none) := by
          simp [loadTrendsResolve, e1, e2, e3]
        rw [hres]
        refine ⟨rfl, fun _ => e1, fun _ => ⟨e1, e2⟩, Or.inr (Or.inr rfl), ?_,
          fun _ => ⟨e1, e2, e3⟩⟩
        intro m fb h
        simp at h
      · have e3f : isEmptyMerged (fetch .globalScope) = false :=
          Bool.eq_false_iff.mpr e3
        have hres : loadTrendsResolve fetch true true
            = ([TrendScope.fullScope, TrendScope.muniScope, TrendScope.globalScope],
               some (fetch .globalScope, true)) := by
          simp [loadTrendsResolve, e1, e2, e3f]
        rw [hres]
        refine ⟨rfl, fun _ => e1, fun _ => ⟨e1, e2⟩, Or.inr (Or.inr rfl), ?_, ?_⟩
        · intro m fb h
          simp only [Option.some.injEq, Prod.mk.injEq] at h
          refine ⟨TrendScope.globalScope, by simp, h.1.symm, ?_, ?_⟩
          · rw [← h.1]
            exact e3f
          · rw [← h.2]
            rfl
        · intro h
          simp at h
    · have e2f : isEmptyMerged (fetch .muniScope) = false := Bool.eq_false_iff.mpr e2
      have hres : loadTrendsResolve fetch true true
          = ([TrendScope.fullScope, TrendScope.muniScope], some (fetch .muniScope, true)) := by
        simp [loadTrendsResolve, e1, e2f]
      rw [hres]
      refine ⟨rfl, fun _ => e1, ?_, Or.inr (Or.inl rfl), ?_, ?_⟩
      · intro hmem
        simp at hmem
      · intro m fb h
        simp only [Option.some.injEq, Prod.mk.injEq] at h
        refine ⟨TrendScope.muniScope, by simp, h.1.symm, ?_, ?_⟩
        · rw [← h.1]
          exact e2f
        · rw [← h.2]
          rfl
      · intro h
        simp at h
  · have e1f : isEmptyMerged (fetch .fullScope) = false := Bool.eq_false_iff.mpr e1
    have hres : loadTrendsResolve fetch true true
        = ([TrendScope.fullScope], some (fetch .fullScope, false)) := by
      simp [loadTrendsResolve, e1f]
    rw [hres]
    refine ⟨rfl, ?_, ?_, Or.inl rfl, ?_, ?_⟩
    · intro hmem
      simp at hmem
    · intro hmem
      simp at hmem
    · intro m fb h
      simp only [Option.some.injEq, Prod.mk.injEq] at h
      refine ⟨TrendScope.fullScope, by simp, h.1.symm, ?_, ?_⟩
      · rw [← h.1]
        exact e1f
      · rw [← h.2]
        rfl
    · intro h
      simp at h

/-- A concrete fetch for the C3 witness: data exists only at the global
scope. -/
def fetchProbe : TrendScope → SeriesSet
  | .globalScope => { labels := [1], series := [("t", [some 30])] }
  | _ => { labels := [], series := [] }

/-- Witness for C3: the global scope being reached proves both narrower
scopes were empty. -/
theorem trends_scope_fallback_witness :
    isEmptyMerged (fetchProbe .fullScope) = true
    ∧ isEmptyMerged (fetchProbe .muniScope) = true :=
  (trends_scope_fallback fetchProbe).2.2.1 (by decide)

/-! ### Per-parameter chart fetch (`fetchChart`, modern_dashboard.js:1605-1663) -/

/-- A raw JSON entry of the `values` array: either something whose coercion
(`typeof v === 'number' ? v : parseFloat(v)`) yields a finite number, or
anything else (`null`, `NaN`, non-numeric strings, objects), which the
coercion maps to `null`. -/
inductive JVal
  | jnum (q : ℚ)
  | jother
deriving DecidableEq

/-- Coercion `n = (v is a number) ? v : parseFloat(v); Number.isFinite(n) ? n : null`
(modern_dashboard.js:1639-1642). -/
def coerceVal : JVal → Slot
  | .jnum q => some q
  | .jother => none

/-- The JSON payload shape read by `fetchChart`; `none` models a field that
is absent or fails `Array.isArray`. -/
structure ChartPayload where
  labels : Option (List LabelMs)
  labels_manila : Option (List LabelMs)
  values : Option (List JVal)
deriving DecidableEq

/-- The object `fetchChart` resolves with. -/
structure ChartResult where
  labels : List LabelMs
  labelsManila : List LabelMs
  values : List Slot
deriving DecidableEq

/-- The label source after the Manila fallback:
`if (!labels.length && labelsManila.length) labels = labelsManila`
(modern_dashboard.js:1636). -/
def effLabels (d : ChartPayload) : List LabelMs :=
  if (d.labels.getD []).isEmpty && !((d.labels_manila.getD []).isEmpty)
  then d.labels_manila.getD [] else d.labels.getD []

/-- The `.then(d => ...)` body of `doFetch` (modern_dashboard.js:1632-1646):
pick the label source, coerce every value to a finite number or `null`,
and truncate everything to the shorter of labels and values. -/
def parsePayload (d : ChartPayload) : ChartResult :=
  let labels := effLabels d
  let manila := d.labels_manila.getD []
  let values := (d.values.getD []).map coerceVal
  let n := min labels.length values.length
  { labels := labels.take n
    labelsManila := manila.take (min manila.length n)
    values := values.take n }

/-- The empty result the outer catch resolves with
(modern_dashboard.js:1659-1662). -/
def emptyChart : ChartResult := { labels := [], labelsManila := [], values := [] }

/-- Result of `fetchChart` as a function of the first response, the `days=1`
retry response, and whether a `days` window was requested
(modern_dashboard.js:1649-1662): an ok-but-empty first result without a
`days` window triggers one retry; any thrown error resolves to the empty
result. -/
def fetchChart (resp1 resp2 : Fetched ChartPayload) (useDays : Bool) : ChartResult :=
  match resp1 with
  | .ok d =>
      if (parsePayload d).labels.isEmpty && !useDays then
        match resp2 with
        | .ok d2 => parsePayload d2
        | .fail => emptyChart
      else parsePayload d
  | .fail => emptyChart

/-! ### Claim C10 — shape of every chart-fetch result -/

/-- C10: for every payload, the parsed result truncates labels and values
to the shorter of the two source arrays (so they have equal length), its
values are the pointwise coercions keeping a finite number and mapping
everything else to `null`; any transport or HTTP error — on the first
attempt or the retry — resolves to the empty result; and the final result
always has labels and values of equal length. -/
theorem fetchChart_shape :
    (∀ d : ChartPayload,
        (parsePayload d).labels.length
            = min (effLabels d).length ((d.values.getD []).length)
        ∧ (parsePayload d).values.length = (parsePayload d).labels.length
        ∧ (parsePayload d).values
            = ((d.values.getD []).map coerceVal).take
                (min (effLabels d).length ((d.values.getD []).length))
        ∧ (∀ v ∈ (parsePayload d).values, v = none ∨ ∃ q : ℚ, v = some q)
        ∧ coerceVal JVal.jother = none)
    ∧ (∀ r2 u, fetchChart Fetched.fail r2 u = emptyChart)
    ∧ (∀ d : ChartPayload, (parsePayload d).labels.isEmpty = true →
        fetchChart (Fetched.ok d) Fetched.fail false = emptyChart)
    ∧ (∀ r1 r2 u, (fetchChart r1 r2 u).labels.length = (fetchChart r1 r2 u).values.length) := by
  have hlen : ∀ d : ChartPayload,
      (parsePayload d).labels.length = min (effLabels d).length ((d.values.getD []).length)
      ∧ (parsePayload d).values.length = (parsePayload d).labels.length := by
    intro d
    unfold parsePayload
    dsimp only
    rw [List.length_take, List.length_take, List.length_map]
    omega
  refine ⟨?_, ?_, ?_, ?_⟩
  · intro d
    refine ⟨(hlen d).1, (hlen d).2, ?_, ?_, rfl⟩
    · show ((d.values.getD []).map coerceVal).take _ = _
      rw [List.length_map]
    · intro v hv
      cases v with
      | none => exact Or.inl rfl
      | some q => exact Or.inr ⟨q, rfl⟩
  · intro r2 u
    rfl
  · intro d hempty
    show fetchChart (Fetched.ok d) Fetched.fail false = emptyChart
    simp only [fetchChart]
    rw [hempty]
    rfl
  · intro r1 r2 u
    cases r1 with
    | fail => rfl
    | ok d =>
        show (fetchChart (Fetched.ok d) r2 u).labels.length
          = (fetchChart (Fetched.ok d) r2 u).values.length
        simp only [fetchChart]
        by_cases hc : ((parsePayload d).labels.isEmpty && !u) = true
        · rw [if_pos hc]
          cases r2 with
          | ok d2 => exact ((hlen d2).2).symm
          | fail => rfl
        · rw [if_neg hc]
          exact ((hlen d).2).symm

/-- A malformed payload probe for the C10 witness: `values` holds one
number and one non-numeric entry, `labels` is longer than `values`. -/
def probePayload : ChartPayload :=
  { labels := some [1, 2, 3], labels_manila := none, values := some [.jnum 7, .jother] }

/-- Witness for C10 at the probe payload. -/
theorem fetchChart_shape_witness :
    JVal.jother ∈ [JVal.jnum 7, JVal.jother]
    ∧ (parsePayload probePayload).labels.length
        = min (effLabels probePayload).length ((probePayload.values.getD []).length) := by
  exact ⟨by decide, (fetchChart_shape.1 probePayload).1⟩

/-- Witness for C5 applying the main conjunct at the boundary example. -/
theorem filterMergedByRange_spec_witness :
    filterMergedByRange sampleMerged "1w" =
      { labels := (keepIdx sampleMerged.labels 1704240000000).map (labelAt sampleMerged.labels)
        series :=
          { t := (keepIdx sampleMerged.labels 1704240000000).map (valueAt sampleMerged.series.t)
            h := (keepIdx sampleMerged.labels 1704240000000).map (valueAt sampleMerged.series.h)
            r := (keepIdx sampleMerged.labels 1704240000000).map (valueAt sampleMerged.series.r)
            wl := (keepIdx sampleMerged.labels 1704240000000).map (valueAt sampleMerged.series.wl)
            ws := (keepIdx sampleMerged.labels 1704240000000).map (valueAt sampleMerged.series.ws) } } :=
  (filterMergedByRange_spec.2.2.1 sampleMerged "1w" 7 1704844800000 1704240000000
    (by rfl) (by rfl) (by decide)).1

end FloodDash
